import Mathlib

/-!
Verification of the GRABIT backend orchestration core against its
natural-language specification.

The development shallowly embeds the relevant Python modules:

* `models.py`   — the pydantic data model (statuses, results, requests);
* `config.py`   — `is_quality_direct_download` and the batch defaults;
* `yt_process.py` — `ProcessingStrategy.determine_processor`, the
  `download_batch` / `_download_with_error_isolation` /
  `_select_playlist_videos` helpers;
* `download.py` — the `DownloadOrchestrator` (status / cancel queries,
  `_download_requests_with_isolation`, `_select_playlist_videos`,
  `_execute_single_download`);
* `websocket.py` — the `ConnectionManager` (disconnect, unsubscribe,
  broadcast).

Python `dict`s are embedded as association lists queried with
`List.lookup`, Python `set`s as duplicate-free lists, exceptions as an
explicit `Except` outcome, and the asyncio scheduling of the two batch
executors as small-step transition relations.
-/

/-- `models.DownloadStatus` (models.py lines 20-28). -/
inductive DownloadStatus where
  | pending
  | extracting
  | downloading
  | rendering
  | completed
  | failed
  | cancelled
deriving DecidableEq, Repr

/-- A raised Python exception, reduced to the two attributes the
orchestrator reads from it: `str(e)` and `type(e).__name__`. -/
structure PyExc where
  msg : String
  cls : String
deriving DecidableEq, Repr

/-- The fields of `models.DownloadRequest` consulted by the routing and
batch logic (models.py lines 153-162). -/
structure DownloadRequestM where
  url : String
  quality : Int
deriving DecidableEq, Repr

/-- The fields of `models.DownloadResult` the orchestration layer reads
and writes (models.py lines 252-275). -/
structure DownloadResult where
  task_id : String
  status : DownloadStatus
  error : Option String := none
  error_type : Option String := none
  filesize : Option Nat := none
deriving DecidableEq, Repr

/-- The aggregate fields of `models.BatchResult` (models.py lines
278-294); `models.PlaylistResult` has the same aggregate shape. -/
structure BatchResult where
  batch_id : String
  total_videos : Nat
  successful_downloads : Nat
  failed_downloads : Nat
  results : List DownloadResult
  total_filesize : Nat
deriving DecidableEq, Repr

/-- Equality of modelled Python call outcomes is decidable. -/
instance instDecEqExcept [DecidableEq ε] [DecidableEq α] :
    DecidableEq (Except ε α) := fun x y =>
  match x, y with
  | .error a, .error b => decidable_of_iff (a = b) (by simp)
  | .error _, .ok _ => isFalse (fun h => by cases h)
  | .ok _, .error _ => isFalse (fun h => by cases h)
  | .ok a, .ok b => decidable_of_iff (a = b) (by simp)

/-- The `download_with_semaphore` wrapper of
`DownloadOrchestrator._download_requests_with_isolation` (download.py
lines 480-493): the item's download outcome is returned as-is on
success, and any raised exception is converted into a FAILED result for
that item alone, carrying `str(e)` and `type(e).__name__`. -/
def wrapIsolation (taskId : String) (index : Nat)
    (outcome : Except PyExc DownloadResult) : DownloadResult :=
  match outcome with
  | .ok r => r
  | .error e =>
    { task_id := taskId ++ "_video_" ++ toString index
      status := .failed
      error := some e.msg
      error_type := some e.cls }

/-- The per-item results produced by
`_download_requests_with_isolation` (download.py lines 495-505), given
the list of raw download outcomes: item `i` contributes exactly
`wrapIsolation taskId i` of its own outcome. -/
def isolatedFromOutcomes (taskId : String)
    (outcomes : List (Except PyExc DownloadResult)) : List DownloadResult :=
  outcomes.enum.map (fun p => wrapIsolation taskId p.1 p.2)

/-- `_download_requests_with_isolation` run against a downloader
function (modelling `self.processor.download_video`): each request's
outcome is wrapped with per-item error isolation. -/
def isolatedResults (downloader : DownloadRequestM → Except PyExc DownloadResult)
    (taskId : String) (requests : List DownloadRequestM) : List DownloadResult :=
  isolatedFromOutcomes taskId (requests.map downloader)

/-- The aggregate construction of
`DownloadOrchestrator._execute_batch_download` (download.py lines
377-391): partition the executor's results by `status == COMPLETED` and
record the counts; `_execute_playlist_download` (lines 296-311) builds
its `PlaylistResult` identically. -/
def buildBatchResult (batchId : String) (total : Nat)
    (res : List DownloadResult) : BatchResult :=
  let successful := res.filter (fun r => decide (r.status = .completed))
  let failed := res.filter (fun r => !(decide (r.status = .completed)))
  { batch_id := batchId
    total_videos := total
    successful_downloads := successful.length
    failed_downloads := failed.length
    results := res
    total_filesize := (successful.map (fun r => r.filesize.getD 0)).sum }

/-- `YouTubeProcessor._download_with_error_isolation` (yt_process.py
lines 376-391): same conversion of an exception into a FAILED result,
with the caller-supplied per-item task id. -/
def ytWrapIsolation (taskId : String)
    (outcome : Except PyExc DownloadResult) : DownloadResult :=
  match outcome with
  | .ok r => r
  | .error e =>
    { task_id := taskId
      status := .failed
      error := some e.msg
      error_type := some e.cls }

/-- `YouTubeProcessor.download_batch` (yt_process.py lines 223-292):
each URL is wrapped with error isolation, results are partitioned, and
ONLY the successful sublist is returned (line 292 returns
`successful_results`). -/
def ytDownloadBatch (downloader : DownloadRequestM → Except PyExc DownloadResult)
    (requests : List DownloadRequestM) : List DownloadResult :=
  let results := requests.enum.map
    (fun p => ytWrapIsolation ("batch_video_" ++ toString p.1) (downloader p.2))
  results.filter (fun r => decide (r.status = .completed))

/-- Filtering a list by a predicate and by its negation partitions it:
the two lengths sum to the original length. -/
theorem length_filter_add_length_filter_not (p : α → Bool) (l : List α) :
    (l.filter p).length + (l.filter (fun a => !(p a))).length = l.length := by
  induction l with
  | nil => rfl
  | cons a t ih =>
    by_cases h : p a = true
    · simp [List.filter, h, ← ih]; omega
    · simp [List.filter, h, Bool.not_eq_true] at *; omega

/-- C1 (amended): for every list of N requests run through the
orchestrator's bounded executor `_download_requests_with_isolation`,
any completion order (a permutation of the per-item results, modelling
`asyncio.as_completed`) yields exactly one result per input item, and
the `BatchResult`/`PlaylistResult` built from it has all N results and
`successful_downloads + failed_downloads = N`. -/
theorem c1_executor_one_result_per_item
    (downloader : DownloadRequestM → Except PyExc DownloadResult)
    (taskId batchId : String) (requests : List DownloadRequestM)
    (res : List DownloadResult)
    (hperm : res.Perm (isolatedResults downloader taskId requests)) :
    res.length = requests.length ∧
    (buildBatchResult batchId requests.length res).successful_downloads +
      (buildBatchResult batchId requests.length res).failed_downloads
      = requests.length ∧
    (buildBatchResult batchId requests.length res).results.length
      = requests.length := by
  have hlen : res.length = requests.length := by
    have h := hperm.length_eq
    simpa [isolatedResults, isolatedFromOutcomes] using h
  refine ⟨hlen, ?_, ?_⟩
  · have h := length_filter_add_length_filter_not
      (fun r => decide (r.status = DownloadStatus.completed)) res
    simp only [buildBatchResult]
    omega
  · simpa [buildBatchResult] using hlen

/-- Concrete 5-request batch in which only the third URL fails. -/
def c1reqs : List DownloadRequestM :=
  [⟨"u1", 720⟩, ⟨"u2", 720⟩, ⟨"u3", 720⟩, ⟨"u4", 720⟩, ⟨"u5", 720⟩]

/-- Downloader that raises only for the third URL. -/
def c1downloader : DownloadRequestM → Except PyExc DownloadResult := fun rq =>
  if rq.url = "u3" then .error ⟨"network timeout", "DownloadError"⟩
  else .ok { task_id := "", status := .completed, filesize := some 10 }

/-- The per-item result list of the concrete 5-request batch. -/
def c1iso : List DownloadResult := isolatedResults c1downloader "batch_1" c1reqs

/-- Witness for C1: the 5-URL scenario with one failing item yields 5
results, successful_downloads = 4 and failed_downloads = 1. -/
theorem c1_executor_one_result_per_item_witness :
    c1iso.Perm (isolatedResults c1downloader "batch_1" c1reqs) ∧
    (c1iso.length = c1reqs.length ∧
     (buildBatchResult "batch_1" c1reqs.length c1iso).successful_downloads +
       (buildBatchResult "batch_1" c1reqs.length c1iso).failed_downloads
       = c1reqs.length ∧
     (buildBatchResult "batch_1" c1reqs.length c1iso).results.length
       = c1reqs.length) ∧
    (buildBatchResult "batch_1" c1reqs.length c1iso).successful_downloads = 4 ∧
    (buildBatchResult "batch_1" c1reqs.length c1iso).failed_downloads = 1 :=
  ⟨List.Perm.refl _,
   c1_executor_one_result_per_item c1downloader "batch_1" "batch_1" c1reqs
     c1iso (List.Perm.refl _),
   by decide, by decide⟩

/-- Concrete 2-request batch whose second URL fails. -/
def c1cexReqs : List DownloadRequestM := [⟨"a", 720⟩, ⟨"b", 720⟩]

/-- Downloader that raises for the second URL. -/
def c1cexDownloader : DownloadRequestM → Except PyExc DownloadResult := fun rq =>
  if rq.url = "b" then .error ⟨"boom", "RuntimeError"⟩
  else .ok { task_id := "t", status := .completed }

/-- Counterexample for C1 as stated: `YouTubeProcessor.download_batch`
(one of the two cited executor implementations) does NOT return one
result per input item — for 2 inputs with one failure it returns only
the 1 successful result, dropping the failed one. -/
theorem c1_counterexample :
    c1cexReqs.length = 2 ∧
    (ytDownloadBatch c1cexDownloader c1cexReqs).length = 1 ∧
    (ytDownloadBatch c1cexDownloader c1cexReqs).length ≠ c1cexReqs.length := by
  decide

/-- C3: in the per-item isolation wrapper of the batch executor, an
exception raised by item `i`'s download is converted into a FAILED
result for item `i` alone, carrying the error message and the
exception's class name; every sibling item `j ≠ i` still yields the
wrap of its own outcome, untouched by item `i`'s failure. -/
theorem c3_error_isolated_per_item
    (taskId : String) (outcomes : List (Except PyExc DownloadResult))
    (i : Nat) (e : PyExc)
    (hfail : outcomes[i]? = some (.error e)) :
    (isolatedFromOutcomes taskId outcomes)[i]? =
      some { task_id := taskId ++ "_video_" ++ toString i
             status := .failed
             error := some e.msg
             error_type := some e.cls } ∧
    ∀ j, j ≠ i →
      (isolatedFromOutcomes taskId outcomes)[j]? =
        outcomes[j]?.map (wrapIsolation taskId j) := by
  constructor
  · simp [isolatedFromOutcomes, List.getElem?_enum, Option.map_map, hfail,
      wrapIsolation]
  · intro j _
    simp [isolatedFromOutcomes, List.getElem?_enum, Option.map_map]
    rfl

/-- Concrete three-item outcome list whose middle item raised. -/
def c3outs : List (Except PyExc DownloadResult) :=
  [.ok { task_id := "p0", status := .completed },
   .error ⟨"403 forbidden", "HTTPError"⟩,
   .ok { task_id := "p2", status := .completed }]

/-- Witness for C3 at a concrete batch: item 1 raised, items 0 and 2
are unaffected. -/
theorem c3_error_isolated_per_item_witness :
    c3outs[1]? = some (.error ⟨"403 forbidden", "HTTPError"⟩) ∧
    (isolatedFromOutcomes "pl" c3outs)[1]? =
      some { task_id := "pl_video_1"
             status := .failed
             error := some "403 forbidden"
             error_type := some "HTTPError" } ∧
    (isolatedFromOutcomes "pl" c3outs)[0]? =
      c3outs[0]?.map (wrapIsolation "pl" 0) ∧
    (isolatedFromOutcomes "pl" c3outs)[2]? =
      c3outs[2]?.map (wrapIsolation "pl" 2) :=
  ⟨by decide,
   (c3_error_isolated_per_item "pl" c3outs 1 ⟨"403 forbidden", "HTTPError"⟩
     (by decide)).1,
   (c3_error_isolated_per_item "pl" c3outs 1 ⟨"403 forbidden", "HTTPError"⟩
     (by decide)).2 0 (by decide),
   (c3_error_isolated_per_item "pl" c3outs 1 ⟨"403 forbidden", "HTTPError"⟩
     (by decide)).2 2 (by decide)⟩

/-- `yt_process.ProcessorType` (yt_process.py lines 22-25). -/
inductive ProcessorType where
  | pytube
  | ytdlp
deriving DecidableEq, Repr

/-- `Config.is_quality_direct_download` (config.py lines 165-167). -/
def is_quality_direct_download (maxQualityDirect quality : Int) : Bool :=
  decide (quality ≤ maxQualityDirect)

/-- The operation families hard-coded in
`ProcessingStrategy.determine_processor` (yt_process.py lines 45, 49,
58). -/
def metadataOps : List String := ["metadata", "extract", "info"]

/-- Download-family operations (yt_process.py line 49). -/
def downloadOps : List String := ["download", "stream"]

/-- Subtitle/thumbnail-family operations (yt_process.py line 58). -/
def subtitleOps : List String := ["subtitles", "thumbnail", "captions"]

/-- `ProcessingStrategy.determine_processor` (yt_process.py lines
31-62), with the configured direct-download ceiling passed
explicitly. -/
def determine_processor (maxQualityDirect quality : Int)
    (operation : String) : ProcessorType :=
  if operation ∈ metadataOps then .ytdlp
  else if operation ∈ downloadOps then
    (if is_quality_direct_download maxQualityDirect quality then .pytube
     else .ytdlp)
  else if operation ∈ subtitleOps then .ytdlp
  else .ytdlp

/-- `ProcessingStrategy.requires_rendering` (yt_process.py lines
64-67): above the ceiling, the split-download-then-render path is
taken. -/
def requires_rendering (maxQualityDirect quality : Int) : Bool :=
  !(is_quality_direct_download maxQualityDirect quality)

/-- C4: the Routing Strategy is a pure total function of
(quality, operation): metadata/info/subtitle/thumbnail/caption
operations and unknown operations return yt-dlp; download/stream
operations return pytube exactly when the quality is at or below
MAX_QUALITY_DIRECT and yt-dlp (whose path then requires rendering)
when it is above. -/
theorem c4_routing_strategy (maxQualityDirect quality : Int)
    (operation : String) :
    determine_processor maxQualityDirect quality operation =
      (if operation ∈ downloadOps then
        (if quality ≤ maxQualityDirect then ProcessorType.pytube
         else ProcessorType.ytdlp)
       else ProcessorType.ytdlp) ∧
    (requires_rendering maxQualityDirect quality = true ↔
      ¬ quality ≤ maxQualityDirect) := by
  constructor
  · by_cases h1 : operation ∈ metadataOps
    · fin_cases h1 <;> rfl
    · by_cases h2 : operation ∈ downloadOps
      · fin_cases h2 <;>
          · by_cases hq : quality ≤ maxQualityDirect <;>
              simp [determine_processor, is_quality_direct_download, hq,
                metadataOps, downloadOps]
      · by_cases h3 : operation ∈ subtitleOps
        · fin_cases h3 <;> rfl
        · simp [determine_processor, h1, h2, h3]
  · simp [requires_rendering, is_quality_direct_download]

/-- The playlist-selection fields of `models.PlaylistRequest`
(models.py lines 180-185). -/
structure PlaylistRequestM where
  download_all : Bool
  selected_videos : List Int
  start_index : Option Int
  end_index : Option Int
  max_downloads : Option Int
deriving DecidableEq, Repr

/-- Python's prefix slice `l[:k]` for an integer bound `k`: a
non-negative bound takes the first `k` elements (clamped at the
length), a negative bound drops `-k` elements from the end. -/
def pySliceTo (k : Int) (l : List α) : List α :=
  if k < 0 then l.take (l.length - (-k).toNat) else l.take k.toNat

/-- Step (1) of `_select_playlist_videos` (download.py lines 429-435,
identically yt_process.py lines 352-359): all videos when
`download_all`, else the videos at the request's listed indices, in
listed order, with out-of-range indices dropped. -/
def selectExplicit (videos : List α) (req : PlaylistRequestM) : List α :=
  if req.download_all then videos
  else req.selected_videos.filterMap
    (fun i => if i < 0 then none else videos[i.toNat]?)

/-- `DownloadOrchestrator._select_playlist_videos` (download.py lines
425-449; the copy in yt_process.py lines 347-374 is identical):
explicit selection, then `selected[max(0,start):]`, then
`selected[:min(len(selected), end+1)]`, then
`selected[:max_downloads]`. -/
def selectPlaylistVideos (videos : List α) (req : PlaylistRequestM) : List α :=
  let sel0 := selectExplicit videos req
  let sel1 := match req.start_index with
    | none => sel0
    | some st => sel0.drop (max 0 st).toNat
  let sel2 := match req.end_index with
    | none => sel1
    | some en => pySliceTo (min (sel1.length : Int) (en + 1)) sel1
  match req.max_downloads with
  | none => sel2
  | some m => pySliceTo m sel2

/-- The selection policy in the words of the claim: explicit
selection, then the start/end index WINDOW over that selected list
(elements at positions `start` through `end` of the selected list, end
inclusive), then the maximum-count truncation. -/
def selectSpecWindow (videos : List α) (req : PlaylistRequestM) : List α :=
  let sel0 := selectExplicit videos req
  let windowed0 := match req.end_index with
    | none => sel0
    | some en => pySliceTo (en + 1) sel0
  let windowed := match req.start_index with
    | none => windowed0
    | some st => windowed0.drop (max 0 st).toNat
  match req.max_downloads with
  | none => windowed
  | some m => pySliceTo m windowed

/-- The request of the C9 counterexample: all videos, window start 1,
window end 1. -/
def c9req : PlaylistRequestM :=
  { download_all := true
    selected_videos := []
    start_index := some 1
    end_index := some 1
    max_downloads := none }

/-- Counterexample for C9 as stated: on a 5-video playlist with
`start_index = 1` and `end_index = 1`, the code returns TWO videos
(the end bound is applied to the already start-trimmed list), while a
start/end window over the selected list with end inclusive would
return one. -/
theorem c9_counterexample :
    selectPlaylistVideos [0, 1, 2, 3, 4] c9req = [1, 2] ∧
    selectSpecWindow [0, 1, 2, 3, 4] c9req = [1] ∧
    selectPlaylistVideos [0, 1, 2, 3, 4] c9req ≠
      selectSpecWindow [0, 1, 2, 3, 4] c9req := by
  decide

/-- The amended selection pipeline: explicit selection, then drop
`max 0 start` elements, then keep the first `end + 1` elements OF THE
START-TRIMMED LIST (the end index is re-counted after the start trim),
then keep the first `max_downloads` elements. -/
def selectSpecSequential (videos : List α) (req : PlaylistRequestM) : List α :=
  let sel0 := selectExplicit videos req
  let sel1 := match req.start_index with
    | none => sel0
    | some st => sel0.drop (max 0 st).toNat
  let sel2 := match req.end_index with
    | none => sel1
    | some en => sel1.take (en + 1).toNat
  match req.max_downloads with
  | none => sel2
  | some m => sel2.take m.toNat

/-- Taking at most the length of the list is the same as taking the
unclamped amount. -/
theorem take_min_length (l : List α) (k : Nat) :
    l.take (min l.length k) = l.take k := by
  rcases Nat.le_total l.length k with h | h
  · rw [min_eq_left h, List.take_length, List.take_of_length_le h]
  · rw [min_eq_right h]

/-- For a non-negative bound, Python's `l[:k]` is `List.take`. -/
theorem pySliceTo_nonneg (k : Int) (h : 0 ≤ k) (l : List α) :
    pySliceTo k l = l.take k.toNat := by
  unfold pySliceTo
  rw [if_neg (by omega)]

/-- The `min(len(selected), end + 1)` clamp of the source is redundant
for a non-negative end bound: the slice is a plain `take`. -/
theorem pySliceTo_min_len (l : List α) (en : Int) (h : 0 ≤ en) :
    pySliceTo (min (l.length : Int) (en + 1)) l = l.take (en + 1).toNat := by
  rcases le_total (l.length : Int) (en + 1) with hh | hh
  · rw [min_eq_left hh, pySliceTo_nonneg _ (Int.natCast_nonneg _)]
    have h1 : l.length ≤ (en + 1).toNat := by omega
    rw [Int.toNat_natCast, List.take_length, List.take_of_length_le h1]
  · rw [min_eq_right hh, pySliceTo_nonneg _ (by omega)]

/-- C9 (amended): the selected video list equals the result of
applying, in this order: (1) the explicit selection (all videos when
`download_all`, else the videos at the listed indices with
out-of-range indices dropped); (2) the optional start trim followed by
the optional end trim, where the end index is inclusive and counted in
the start-trimmed list; (3) the optional maximum-count truncation —
provided the end index and maximum count, when present, are
non-negative (negative values trigger Python's slice-from-the-end
semantics instead). -/
theorem c9_selection_policy (videos : List α) (req : PlaylistRequestM)
    (hend : ∀ en, req.end_index = some en → 0 ≤ en)
    (hmax : ∀ m, req.max_downloads = some m → 0 ≤ m) :
    selectPlaylistVideos videos req = selectSpecSequential videos req := by
  unfold selectPlaylistVideos selectSpecSequential
  rcases hmd : req.max_downloads with _ | m <;>
    rcases hen : req.end_index with _ | en <;>
    dsimp only
  · exact pySliceTo_min_len _ en (hend en hen)
  · exact pySliceTo_nonneg m (hmax m hmd) _
  · rw [pySliceTo_min_len _ en (hend en hen),
      pySliceTo_nonneg m (hmax m hmd)]

/-- The request of the C9 witness: explicit indices, window and
truncation all present. -/
def c9wreq : PlaylistRequestM :=
  { download_all := false
    selected_videos := [0, 2, 4, 9, 1, 3]
    start_index := some 1
    end_index := some 2
    max_downloads := some 2 }

/-- Witness for the amended C9 at a concrete playlist: explicit
selection keeps [10, 12, 14, 11, 13] (index 9 dropped), the start trim
leaves [12, 14, 11, 13], the end trim (inclusive, re-counted) leaves
[12, 14, 11], and the truncation leaves [12, 14]. -/
theorem c9_selection_policy_witness :
    (∀ en, c9wreq.end_index = some en → (0 : Int) ≤ en) ∧
    (∀ m, c9wreq.max_downloads = some m → (0 : Int) ≤ m) ∧
    selectPlaylistVideos [10, 11, 12, 13, 14] c9wreq =
      selectSpecSequential [10, 11, 12, 13, 14] c9wreq ∧
    selectPlaylistVideos [10, 11, 12, 13, 14] c9wreq = [12, 14] :=
  ⟨by decide, by decide,
   c9_selection_policy [10, 11, 12, 13, 14] c9wreq (by decide) (by decide),
   by decide⟩

/-- The validated fields of `models.BatchRequest` (models.py lines
195-207). -/
structure BatchRequestM where
  urls : List String
  quality : Int
  format : String
  max_concurrent : Option Int
deriving DecidableEq, Repr

/-- The pydantic field constraints of `BatchRequest` (models.py lines
197-199): between 1 and 50 URLs, quality in [144, 2160], format one of
mp4/webm/mkv. `max_concurrent` (line 207) carries no constraint at
all. -/
def validBatchRequest (r : BatchRequestM) : Bool :=
  decide (1 ≤ r.urls.length) && decide (r.urls.length ≤ 50) &&
  decide (144 ≤ r.quality) && decide (r.quality ≤ 2160) &&
  (decide (r.format = "mp4") || decide (r.format = "webm") ||
   decide (r.format = "mkv"))

/-- The effective concurrency limit computed by
`max_concurrent or config.MAX_CONCURRENT_DOWNLOADS` (download.py line
477, likewise yt_process.py line 262): Python's `or` falls through to
the default both when the override is `None` and when it is the falsy
integer `0`. -/
def fallbackMaxConcurrent (maxConcurrent : Option Int)
    (defaultLimit : Int) : Int :=
  match maxConcurrent with
  | none => defaultLimit
  | some v => if v = 0 then defaultLimit else v

/-- C10: `BatchRequest` accepts `max_concurrent = 0` (validation is
independent of the field), and the executor silently falls back to the
global default both for `None` and for `0`; a non-zero override is
used as given. -/
theorem c10_max_concurrent_fallback (r : BatchRequestM)
    (defaultLimit v : Int) (hv : v ≠ 0) :
    validBatchRequest { r with max_concurrent := some 0 } =
      validBatchRequest r ∧
    fallbackMaxConcurrent (some 0) defaultLimit = defaultLimit ∧
    fallbackMaxConcurrent none defaultLimit = defaultLimit ∧
    fallbackMaxConcurrent (some v) defaultLimit = v := by
  refine ⟨rfl, rfl, rfl, ?_⟩
  simp [fallbackMaxConcurrent, hv]

/-- A concrete valid batch request carrying `max_concurrent = 0`. -/
def c10req : BatchRequestM :=
  { urls := ["a", "b", "c"]
    quality := 1080
    format := "mp4"
    max_concurrent := some 0 }

/-- Witness for C10: a request with `max_concurrent = 0` validates,
and with the default limit 5 the executor runs with limit 5; an
override of 2 is used as given. -/
theorem c10_max_concurrent_fallback_witness :
    (2 : Int) ≠ 0 ∧
    (validBatchRequest { c10req with max_concurrent := some 0 } =
       validBatchRequest c10req ∧
     fallbackMaxConcurrent (some 0) 5 = 5 ∧
     fallbackMaxConcurrent none 5 = 5 ∧
     fallbackMaxConcurrent (some 2) 5 = 2) ∧
    validBatchRequest c10req = true :=
  ⟨by decide, c10_max_concurrent_fallback c10req 5 2 (by decide), by decide⟩

/-- Python dict assignment `d[k] = v` on an association list: replace
the value at an existing key in place, else append the new binding. -/
def dictSet (k : String) (v : β) (l : List (String × β)) :
    List (String × β) :=
  if (l.lookup k).isSome then
    l.map (fun p => if p.1 = k then (p.1, v) else p)
  else l ++ [(k, v)]

/-- Modifying the value at a key (in place) is seen by `lookup`. -/
theorem lookup_map_modify (k : String) (f : β → β) (l : List (String × β))
    (v : β) (h : l.lookup k = some v) :
    (l.map (fun p => if p.1 = k then (p.1, f p.2) else p)).lookup k
      = some (f v) := by
  induction l with
  | nil => simp at h
  | cons p t ih =>
    rcases p with ⟨a, b⟩
    by_cases hk : a = k
    · subst hk
      have hb : b = v := by simpa [List.lookup] using h
      subst hb
      simp only [List.map]
      simp [List.lookup]
    · have hk2 : ¬ (k = a) := fun hh => hk hh.symm
      have hbeq : (k == a) = false := beq_eq_false_iff_ne.mpr hk2
      have h2 : List.lookup k t = some v := by
        simpa only [List.lookup, hbeq] using h
      simp only [List.map, hk, if_false]
      simpa only [List.lookup, hbeq] using ih h2

/-- Appending a fresh binding is seen by `lookup` when the key was
absent. -/
theorem lookup_append_single (k : String) (v : β) (l : List (String × β))
    (h : l.lookup k = none) : (l ++ [(k, v)]).lookup k = some v := by
  induction l with
  | nil => simp [List.lookup]
  | cons p t ih =>
    rcases p with ⟨a, b⟩
    by_cases hk : k = a
    · subst hk
      simp [List.lookup] at h
    · have hbeq : (k == a) = false := beq_eq_false_iff_ne.mpr hk
      have h2 : List.lookup k t = none := by
        simpa only [List.lookup, hbeq] using h
      simpa only [List.cons_append, List.lookup, hbeq] using ih h2

/-- `lookup` after `dictSet` returns the stored value. -/
theorem lookup_dictSet_self (k : String) (v : β) (l : List (String × β)) :
    (dictSet k v l).lookup k = some v := by
  unfold dictSet
  by_cases h : (l.lookup k).isSome
  · rw [if_pos h]
    obtain ⟨w, hw⟩ := Option.isSome_iff_exists.mp h
    exact lookup_map_modify k (fun _ => v) l w hw
  · rw [if_neg h]
    exact lookup_append_single k v l (Option.not_isSome_iff_eq_none.mp h)

/-- The observable face of an `asyncio.Task` handle as read by the
orchestrator: `task.done()` and `task.cancelled()`. -/
structure TaskHandle where
  done : Bool
  cancelled : Bool
deriving DecidableEq, Repr

/-- The mutable state of `DownloadOrchestrator` (download.py lines
29-33): the registry of active execution handles and the map of stored
terminal results. -/
structure OrchState where
  active_tasks : List (String × TaskHandle)
  task_results : List (String × DownloadResult)
deriving DecidableEq, Repr

/-- The dictionary returned by `DownloadOrchestrator.get_task_status`,
with its optional keys made explicit. -/
structure TaskSnapshot where
  task_id : String
  status : String
  done : Bool
  cancelled : Option Bool
  result : Option DownloadResult
deriving DecidableEq, Repr

/-- `DownloadOrchestrator.get_task_status` (download.py lines 140-172):
the active branch (handle still registered) reports running/completed
and the done and cancelled flags but NO result; the result branch
(handle evicted, result stored) reports the stored result; otherwise
`None`. -/
def get_task_status (st : OrchState) (taskId : String) :
    Option TaskSnapshot :=
  match st.active_tasks.lookup taskId with
  | some t =>
    some { task_id := taskId
           status := if t.done then "completed" else "running"
           done := t.done
           cancelled := some t.cancelled
           result := none }
  | none =>
    match st.task_results.lookup taskId with
    | some r =>
      some { task_id := taskId
             status := "completed"
             done := true
             cancelled := none
             result := some r }
    | none => none

/-- `DownloadOrchestrator._execute_single_download` (download.py lines
212-265) as a function of the opaque processor outcome: on success the
result (with the task id stamped in) is stored; on ANY exception a
FAILED result carrying `str(e)` and `type(e).__name__` is built and
stored. The function is total: no exception escapes the execution
routine. -/
def execute_single_download (st : OrchState) (taskId : String)
    (outcome : Except PyExc DownloadResult) : DownloadResult × OrchState :=
  match outcome with
  | .ok r =>
    let r2 := { r with task_id := taskId }
    (r2, { st with task_results := dictSet taskId r2 st.task_results })
  | .error e =>
    let r2 : DownloadResult :=
      { task_id := taskId
        status := .failed
        error := some e.msg
        error_type := some e.cls }
    (r2, { st with task_results := dictSet taskId r2 st.task_results })

/-- `DownloadOrchestrator.cancel_task` (download.py lines 174-197):
true and a cancellation request exactly when the handle is registered
and not yet done; false otherwise, never raising. -/
def cancel_task (st : OrchState) (taskId : String) : Bool × OrchState :=
  match st.active_tasks.lookup taskId with
  | some t =>
    if t.done then (false, st)
    else
      (true,
       { st with
         active_tasks := st.active_tasks.map (fun p =>
           if p.1 = taskId then (p.1, { p.2 with cancelled := true }) else p) })
  | none => (false, st)

/-- A stored FAILED result used in the C5 counterexample. -/
def c5failed : DownloadResult :=
  { task_id := "t"
    status := .failed
    error := some "boom"
    error_type := some "ValueError" }

/-- Orchestrator state in which task `t` has finished (its handle is
done and its FAILED result is stored) but the handle has not yet been
evicted by `cleanup_completed_tasks`. -/
def c5state : OrchState :=
  { active_tasks := [("t", { done := true, cancelled := false })]
    task_results := [("t", c5failed)] }

/-- Counterexample for C5 as stated: task `t` has reached a terminal
outcome and its result is recorded, yet the status query returns a
snapshot WITHOUT the recorded result (and with top-level status
"completed" even though the stored result is FAILED), because the
still-registered handle shadows the result branch. -/
theorem c5_counterexample :
    get_task_status c5state "t" =
      some { task_id := "t"
             status := "completed"
             done := true
             cancelled := some false
             result := none } ∧
    c5state.task_results.lookup "t" = some c5failed ∧
    c5failed.status = DownloadStatus.failed := by
  decide

/-- C5 (amended): the status query returns not_found exactly for ids
known to neither registry; while a finished task's handle is still in
the active set the snapshot reports done = true but omits the stored
result; once the handle is evicted the snapshot carries the recorded
result (so a failed execution is visible through the result's own
status and error fields); and the execution routine is total — every
outcome, exception included, is converted into a stored result, so no
exception escapes after the task id has been returned. -/
theorem c5_status_query (st : OrchState) (taskId : String) :
    (get_task_status st taskId = none ↔
      st.active_tasks.lookup taskId = none ∧
      st.task_results.lookup taskId = none) ∧
    (∀ t, st.active_tasks.lookup taskId = some t → t.done = true →
      get_task_status st taskId =
        some { task_id := taskId
               status := "completed"
               done := true
               cancelled := some t.cancelled
               result := none }) ∧
    (∀ r, st.active_tasks.lookup taskId = none →
      st.task_results.lookup taskId = some r →
      get_task_status st taskId =
        some { task_id := taskId
               status := "completed"
               done := true
               cancelled := none
               result := some r }) ∧
    (∀ outcome : Except PyExc DownloadResult,
      (execute_single_download st taskId outcome).2.task_results.lookup taskId
        = some (execute_single_download st taskId outcome).1 ∧
      ∀ e, outcome = .error e →
        (execute_single_download st taskId outcome).1 =
          { task_id := taskId
            status := .failed
            error := some e.msg
            error_type := some e.cls }) := by
  refine ⟨?_, ?_, ?_, ?_⟩
  · unfold get_task_status
    rcases ha : st.active_tasks.lookup taskId with _ | t
    · rcases hr : st.task_results.lookup taskId with _ | r <;> simp
    · simp
  · intro t ha hd
    simp [get_task_status, ha, hd]
  · intro r ha hr
    simp [get_task_status, ha, hr]
  · intro outcome
    rcases outcome with e | r
    · exact ⟨lookup_dictSet_self _ _ _, fun e2 he => by
        simp only [Except.error.injEq] at he
        subst he
        rfl⟩
    · exact ⟨lookup_dictSet_self _ _ _, fun e2 he => by cases he⟩

/-- Orchestrator state for the C5 witness: one running task, one
evicted finished task with a stored failure. -/
def c5wstate : OrchState :=
  { active_tasks := [("run1", { done := false, cancelled := false })]
    task_results := [("old1", c5failed)] }

/-- Witness for the amended C5 at a concrete state: an unknown id is
not_found, the evicted task's failure is returned through its stored
result, and executing a download that raises stores a FAILED result
for its task id. -/
theorem c5_status_query_witness :
    (get_task_status c5wstate "nope" = none ↔
      c5wstate.active_tasks.lookup "nope" = none ∧
      c5wstate.task_results.lookup "nope" = none) ∧
    get_task_status c5wstate "old1" =
      some { task_id := "old1"
             status := "completed"
             done := true
             cancelled := none
             result := some c5failed } ∧
    (execute_single_download c5wstate "new1"
        (.error ⟨"disk full", "OSError"⟩)).2.task_results.lookup "new1"
      = some (execute_single_download c5wstate "new1"
          (.error ⟨"disk full", "OSError"⟩)).1 ∧
    (execute_single_download c5wstate "new1"
        (.error ⟨"disk full", "OSError"⟩)).1 =
      { task_id := "new1"
        status := .failed
        error := some "disk full"
        error_type := some "OSError" } :=
  ⟨(c5_status_query c5wstate "nope").1,
   (c5_status_query c5wstate "old1").2.2.1 c5failed (by decide) (by decide),
   ((c5_status_query c5wstate "new1").2.2.2
     (.error ⟨"disk full", "OSError"⟩)).1,
   ((c5_status_query c5wstate "new1").2.2.2
     (.error ⟨"disk full", "OSError"⟩)).2 ⟨"disk full", "OSError"⟩ rfl⟩

/-- C8: `cancel_task` returns true exactly when the task id is
registered with a handle that is not yet done (a cancellation is then
actually requested on that handle), and false when the id is unknown
or the task already terminal; as a total function it never raises. -/
theorem c8_cancel_iff_running (st : OrchState) (taskId : String) :
    ((cancel_task st taskId).1 = true ↔
      ∃ t, st.active_tasks.lookup taskId = some t ∧ t.done = false) ∧
    (∀ t, st.active_tasks.lookup taskId = some t → t.done = false →
      (cancel_task st taskId).2.active_tasks.lookup taskId =
        some { t with cancelled := true }) := by
  constructor
  · unfold cancel_task
    rcases ha : st.active_tasks.lookup taskId with _ | t
    · simp
    · rcases hd : t.done with _ | _ <;> simp [hd]
  · intro t ha hd
    have h2 := lookup_map_modify taskId
      (fun u => { u with cancelled := true }) st.active_tasks t ha
    simp only [cancel_task, ha, hd]
    simpa [hd] using h2

/-- Witness for C8 at a concrete state: cancelling the running task
returns true and raises its cancellation flag; cancelling a done task
or an unknown id returns false. -/
theorem c8_cancel_iff_running_witness :
    ((cancel_task c5wstate "run1").1 = true ↔
      ∃ t, c5wstate.active_tasks.lookup "run1" = some t ∧ t.done = false) ∧
    (cancel_task c5wstate "run1").2.active_tasks.lookup "run1" =
      some { done := false, cancelled := true } ∧
    (cancel_task c5wstate "nope").1 = false ∧
    (cancel_task c5state "t").1 = false :=
  ⟨(c8_cancel_iff_running c5wstate "run1").1,
   (c8_cancel_iff_running c5wstate "run1").2
     { done := false, cancelled := false } (by decide) (by decide),
   by decide, by decide⟩

/-- The state of `websocket.ConnectionManager` (websocket.py lines
24-32): the global connection set and the task-id → subscriber-set
registry (both Python sets, embedded as duplicate-free lists), plus
the per-connection stream of delivered messages (the model of each
connection's outbound socket). Connections are identified by numeric
handles, messages by numeric payloads. -/
structure HubState where
  active_connections : List Nat
  task_subscribers : List (String × List Nat)
  inboxes : List (Nat × List Nat)
deriving DecidableEq, Repr

/-- A key absent from an association list (lookup none) heads no
entry. -/
theorem lookup_none_not_key (k : String) (l : List (String × β))
    (h : l.lookup k = none) : ∀ p ∈ l, p.1 ≠ k := by
  induction l with
  | nil => simp
  | cons p t ih =>
    rcases p with ⟨a, b⟩
    by_cases hk : k = a
    · subst hk
      simp [List.lookup] at h
    · have hbeq : (k == a) = false := beq_eq_false_iff_ne.mpr hk
      have h2 : List.lookup k t = none := by
        simpa only [List.lookup, hbeq] using h
      intro q hq
      rcases List.mem_cons.mp hq with rfl | hq2
      · exact fun hh => hk hh.symm
      · exact ih h2 q hq2

/-- `ConnectionManager.disconnect` (websocket.py lines 66-80): if the
connection is in the global set, remove it there and discard it from
EVERY subscriber set — without deleting entries whose set becomes
empty; otherwise do nothing. -/
def disconnect (st : HubState) (c : Nat) : HubState :=
  if c ∈ st.active_connections then
    { st with
      active_connections := st.active_connections.erase c
      task_subscribers :=
        st.task_subscribers.map (fun p => (p.1, p.2.erase c)) }
  else st

/-- `ConnectionManager.unsubscribe_from_task` (websocket.py lines
104-119): if the task id has an entry, discard the connection from its
set and delete the entry if the set became empty. -/
def unsubscribe_from_task (st : HubState) (c : Nat) (tid : String) :
    HubState :=
  if (st.task_subscribers.lookup tid).isSome then
    { st with
      task_subscribers := st.task_subscribers.filterMap (fun p =>
        if p.1 = tid then
          (if p.2.erase c = [] then none else some (p.1, p.2.erase c))
        else some p) }
  else st

/-- Hub state of the C6 counterexample: one connection, subscribed to
one task. -/
def c6state : HubState :=
  { active_connections := [7]
    task_subscribers := [("t", [7])]
    inboxes := [(7, [])] }

/-- Counterexample for C6 as stated: disconnecting the sole subscriber
of task `t` leaves the entry `("t", ∅)` in the registry — `disconnect`
does not remove subscriber sets that became empty. -/
theorem c6_counterexample :
    disconnect c6state 7 =
      { active_connections := []
        task_subscribers := [("t", [])]
        inboxes := [(7, [])] } ∧
    ("t", ([] : List Nat)) ∈ (disconnect c6state 7).task_subscribers := by
  decide

/-- C6 (amended): after `disconnect(conn)` for a connection in the
global set, the connection is absent from the global connection set
and from every subscriber set; `disconnect` however leaves entries
whose subscriber set became empty in the registry — the immediate
removal of empty subscriber sets is performed only by
`unsubscribe_from_task`, after which no empty entry for that task id
remains. -/
theorem c6_disconnect_removes_everywhere (st : HubState) (c : Nat)
    (tid : String) (hc : c ∈ st.active_connections)
    (hactive : st.active_connections.Nodup)
    (hsubs : ∀ p ∈ st.task_subscribers, p.2.Nodup) :
    (c ∉ (disconnect st c).active_connections ∧
     ∀ p ∈ (disconnect st c).task_subscribers, c ∉ p.2) ∧
    (∀ p ∈ (unsubscribe_from_task st c tid).task_subscribers,
      p.1 = tid → p.2 ≠ []) := by
  refine ⟨⟨?_, ?_⟩, ?_⟩
  · simp only [disconnect, hc, if_true]
    exact hactive.not_mem_erase
  · simp only [disconnect, hc, if_true]
    intro p hp
    rcases List.mem_map.mp hp with ⟨q, hq, rfl⟩
    exact (hsubs q hq).not_mem_erase
  · intro p hp hp1
    unfold unsubscribe_from_task at hp
    by_cases hl : (st.task_subscribers.lookup tid).isSome
    · rw [if_pos hl] at hp
      rcases List.mem_filterMap.mp hp with ⟨q, hq, hfq⟩
      by_cases hqt : q.1 = tid
      · rw [if_pos hqt] at hfq
        by_cases he : q.2.erase c = []
        · rw [if_pos he] at hfq
          cases hfq
        · rw [if_neg he] at hfq
          have hpq := Option.some.inj hfq
          rw [← hpq]
          exact he
      · rw [if_neg hqt] at hfq
        have hpq := Option.some.inj hfq
        rw [← hpq] at hp1
        exact absurd hp1 hqt
    · rw [if_neg hl] at hp
      have hnone : st.task_subscribers.lookup tid = none :=
        Option.not_isSome_iff_eq_none.mp hl
      exact absurd hp1 (lookup_none_not_key tid st.task_subscribers hnone p hp)

/-- Hub state of the C6 witness: two connections; connection 7 is the
sole subscriber of task `t` and shares task `u` with connection 8. -/
def c6wstate : HubState :=
  { active_connections := [7, 8]
    task_subscribers := [("t", [7]), ("u", [7, 8])]
    inboxes := [(7, []), (8, [])] }

/-- Witness for the amended C6: disconnecting connection 7 removes it
from the global set and from both subscriber sets, while unsubscribing
it from task `t` (whose set becomes empty) deletes that entry. -/
theorem c6_disconnect_removes_everywhere_witness :
    (7 ∈ c6wstate.active_connections ∧
     c6wstate.active_connections.Nodup ∧
     ∀ p ∈ c6wstate.task_subscribers, p.2.Nodup) ∧
    (7 ∉ (disconnect c6wstate 7).active_connections ∧
     ∀ p ∈ (disconnect c6wstate 7).task_subscribers, 7 ∉ p.2) ∧
    (∀ p ∈ (unsubscribe_from_task c6wstate 7 "t").task_subscribers,
      p.1 = "t" → p.2 ≠ []) ∧
    (unsubscribe_from_task c6wstate 7 "t").task_subscribers.lookup "t"
      = none :=
  ⟨⟨by decide, by decide, by decide⟩,
   (c6_disconnect_removes_everywhere c6wstate 7 "t" (by decide) (by decide)
     (by decide)).1,
   (c6_disconnect_removes_everywhere c6wstate 7 "t" (by decide) (by decide)
     (by decide)).2,
   by decide⟩

/-- `self.task_subscribers.get(task_id, set())` (websocket.py line
131). -/
def subscribersOf (st : HubState) (tid : String) : List Nat :=
  (st.task_subscribers.lookup tid).getD []

/-- `ConnectionManager.broadcast_progress` (websocket.py lines
121-144) together with `_broadcast_to_connections` (lines 245-257): a
falsy (empty) task id or an empty/absent subscriber set is a no-op;
otherwise the event is sent to every connection currently in the
subscriber set — modelled as appending the message to each
subscriber's inbox (the per-connection delivery stream), all sends
succeeding. -/
def broadcast_progress (st : HubState) (tid : String) (msg : Nat) :
    HubState :=
  if tid = "" then st
  else if subscribersOf st tid = [] then st
  else
    { st with inboxes := st.inboxes.map (fun p =>
        if p.1 ∈ subscribersOf st tid then (p.1, p.2 ++ [msg]) else p) }

/-- A sequence of publishes for one task, in program order: each task's
execution routine awaits each broadcast before issuing the next. -/
def publishSeq (st : HubState) (tid : String) (msgs : List Nat) : HubState :=
  msgs.foldl (fun s m => broadcast_progress s tid m) st

/-- Broadcasting never changes the subscription registry. -/
theorem broadcast_progress_subscribers (st : HubState) (tid : String)
    (m : Nat) :
    (broadcast_progress st tid m).task_subscribers = st.task_subscribers := by
  unfold broadcast_progress
  by_cases h1 : tid = ""
  · rw [if_pos h1]
  · rw [if_neg h1]
    by_cases h2 : subscribersOf st tid = []
    · rw [if_pos h2]
    · rw [if_neg h2]

/-- Appending a message to the inbox of every subscriber, seen through
`lookup`: the inbox at `c` gains the message exactly when `c` is a
subscriber. -/
theorem lookup_map_append_mem (c : Nat) (subs : List Nat) (m : Nat)
    (l : List (Nat × List Nat)) (q : List Nat) (h : l.lookup c = some q) :
    (l.map (fun p => if p.1 ∈ subs then (p.1, p.2 ++ [m]) else p)).lookup c
      = some (if c ∈ subs then q ++ [m] else q) := by
  induction l with
  | nil => simp at h
  | cons p t ih =>
    rcases p with ⟨a, b⟩
    by_cases hk : a = c
    · subst hk
      have hb : b = q := by simpa [List.lookup] using h
      subst hb
      by_cases hm : a ∈ subs
      · simp only [List.map, hm, if_true]
        simp [List.lookup, hm]
      · simp only [List.map, hm, if_false]
        simp [List.lookup, hm]
    · have hk2 : ¬ (c = a) := fun hh => hk hh.symm
      have hbeq : (c == a) = false := beq_eq_false_iff_ne.mpr hk2
      have h2 : List.lookup c t = some q := by
        simpa only [List.lookup, hbeq] using h
      by_cases hm : a ∈ subs
      · simp only [List.map, hm, if_true]
        simpa only [List.lookup, hbeq] using ih h2
      · simp only [List.map, hm, if_false]
        simpa only [List.lookup, hbeq] using ih h2

/-- Sequential publishes append to each subscriber's inbox in publish
order. -/
theorem publishSeq_inbox (tid : String) (htid : tid ≠ "")
    (msgs : List Nat) :
    ∀ (st : HubState) (c : Nat) (q : List Nat),
      c ∈ subscribersOf st tid →
      st.inboxes.lookup c = some q →
      (publishSeq st tid msgs).inboxes.lookup c = some (q ++ msgs) := by
  induction msgs with
  | nil =>
    intro st c q _ hq
    simpa [publishSeq] using hq
  | cons m ms ih =>
    intro st c q hc hq
    have hsubs_ne : subscribersOf st tid ≠ [] := by
      intro hnil
      rw [hnil] at hc
      cases hc
    have hstep : (broadcast_progress st tid m).inboxes.lookup c
        = some (q ++ [m]) := by
      unfold broadcast_progress
      rw [if_neg htid, if_neg hsubs_ne]
      have h3 := lookup_map_append_mem c (subscribersOf st tid) m
        st.inboxes q hq
      rw [h3, if_pos hc]
    have hsubs_pres : subscribersOf (broadcast_progress st tid m) tid
        = subscribersOf st tid := by
      unfold subscribersOf
      rw [broadcast_progress_subscribers]
    have hrec := ih (broadcast_progress st tid m) c (q ++ [m])
      (by rw [hsubs_pres]; exact hc) hstep
    calc (publishSeq st tid (m :: ms)).inboxes.lookup c
        = (publishSeq (broadcast_progress st tid m) tid ms).inboxes.lookup c
          := by simp [publishSeq]
      _ = some ((q ++ [m]) ++ ms) := hrec
      _ = some (q ++ m :: ms) := by simp

/-- C7: publishing an event for a task id with an empty or absent
subscriber set is a no-op (identical state, nothing delivered);
otherwise the event is appended exactly once to the delivery stream of
each connection currently in the subscriber set (and of no other
connection), and a sequence of publishes for the same task reaches
every subscriber in exactly the order published. -/
theorem c7_publish_exactly_once_in_order (st : HubState) (tid : String)
    (m : Nat) :
    (subscribersOf st tid = [] → broadcast_progress st tid m = st) ∧
    (∀ c q, tid ≠ "" → st.inboxes.lookup c = some q →
      (broadcast_progress st tid m).inboxes.lookup c =
        some (if c ∈ subscribersOf st tid then q ++ [m] else q)) ∧
    (∀ msgs c q, tid ≠ "" → c ∈ subscribersOf st tid →
      st.inboxes.lookup c = some q →
      (publishSeq st tid msgs).inboxes.lookup c = some (q ++ msgs)) := by
  refine ⟨?_, ?_, ?_⟩
  · intro hempty
    unfold broadcast_progress
    by_cases h1 : tid = ""
    · rw [if_pos h1]
    · rw [if_neg h1, if_pos hempty]
  · intro c q htid hq
    unfold broadcast_progress
    rw [if_neg htid]
    by_cases h2 : subscribersOf st tid = []
    · rw [if_pos h2]
      simp [h2, hq]
    · rw [if_neg h2]
      exact lookup_map_append_mem c (subscribersOf st tid) m st.inboxes q hq
  · intro msgs c q htid hc hq
    exact publishSeq_inbox tid htid msgs st c q hc hq

/-- Hub state of the C7 witness: connections 1 and 2 both subscribe to
task `t`; nobody subscribes to task `x`. -/
def c7wstate : HubState :=
  { active_connections := [1, 2]
    task_subscribers := [("t", [1, 2])]
    inboxes := [(1, []), (2, [])] }

/-- Witness for C7: publishing for the unsubscribed task `x` changes
nothing; one publish for `t` delivers exactly one copy to subscriber
1; three sequential publishes reach subscriber 2 in order. -/
theorem c7_publish_exactly_once_in_order_witness :
    subscribersOf c7wstate "x" = [] ∧
    broadcast_progress c7wstate "x" 99 = c7wstate ∧
    (broadcast_progress c7wstate "t" 5).inboxes.lookup 1 =
      some (if 1 ∈ subscribersOf c7wstate "t" then [] ++ [5] else []) ∧
    (publishSeq c7wstate "t" [5, 6, 7]).inboxes.lookup 2 =
      some ([] ++ [5, 6, 7]) :=
  ⟨by decide,
   (c7_publish_exactly_once_in_order c7wstate "x" 99).1 (by decide),
   (c7_publish_exactly_once_in_order c7wstate "t" 5).2.1 1 [] (by decide)
     (by decide),
   (c7_publish_exactly_once_in_order c7wstate "t" 5).2.2 [5, 6, 7] 2 []
     (by decide) (by decide) (by decide)⟩

/-- Phase of one coroutine in the asyncio scheduling models: not yet
started, actively executing, or finished. -/
inductive DlPhase where
  | waiting
  | running
  | done
deriving DecidableEq, Repr

/-- How many items are actively executing. -/
def runningCount (l : List DlPhase) : Nat :=
  l.countP (fun p => decide (p = .running))

/-- Scheduling state of download.py's
`_download_requests_with_isolation` (lines 477-505): the per-item
phases and the free permits of `asyncio.Semaphore(max_concurrent)`. -/
structure SemPoolState where
  phases : List DlPhase
  avail : Nat
deriving DecidableEq, Repr

/-- Small-step scheduling of download.py's executor: each
`download_with_semaphore` coroutine enters `async with semaphore`
BEFORE its download begins, so an item starts only when a permit is
free, and returns the permit when it finishes (lines 480-483). -/
inductive SemPoolStep : SemPoolState → SemPoolState → Prop where
  | start (s : SemPoolState) (i : Nat) (hp : s.phases[i]? = some .waiting)
      (ha : 0 < s.avail) :
      SemPoolStep s ⟨s.phases.set i .running, s.avail - 1⟩
  | finish (s : SemPoolState) (i : Nat) (hp : s.phases[i]? = some .running) :
      SemPoolStep s ⟨s.phases.set i .done, s.avail + 1⟩

/-- Setting a known position trades its contribution to `countP` for
the new element's contribution. -/
theorem countP_set_exchange (p : α → Bool) (l : List α) (i : Nat)
    (a b : α) (h : l[i]? = some a) :
    (l.set i b).countP p + (if p a then 1 else 0) =
      l.countP p + (if p b then 1 else 0) := by
  induction l generalizing i with
  | nil => simp at h
  | cons x t ih =>
    cases i with
    | zero =>
      simp only [List.getElem?_cons_zero, Option.some.injEq] at h
      subst h
      simp only [List.set_cons_zero, List.countP_cons]
      omega
    | succ n =>
      simp only [List.getElem?_cons_succ] at h
      simp only [List.set_cons_succ, List.countP_cons]
      have h2 := ih n h
      omega

/-- No replicate of `waiting` counts as running. -/
theorem runningCount_replicate_waiting (n : Nat) :
    runningCount (List.replicate n DlPhase.waiting) = 0 := by
  induction n with
  | zero => rfl
  | succ m ih =>
    simp only [runningCount, List.replicate_succ, List.countP_cons]
    simp only [runningCount] at ih
    simp [ih]

/-- Each scheduling step of download.py's executor preserves the sum
of active items and free permits. -/
theorem semPoolStep_preserves (k : Nat) (s s2 : SemPoolState)
    (hstep : SemPoolStep s s2)
    (hsum : runningCount s.phases + s.avail = k) :
    runningCount s2.phases + s2.avail = k := by
  cases hstep with
  | start i hp ha =>
    have hc := countP_set_exchange (fun p => decide (p = DlPhase.running))
      s.phases i DlPhase.waiting DlPhase.running hp
    unfold runningCount at *
    simp at hc
    dsimp only
    omega
  | finish i hp =>
    have hc := countP_set_exchange (fun p => decide (p = DlPhase.running))
      s.phases i DlPhase.running DlPhase.done hp
    unfold runningCount at *
    simp at hc
    dsimp only
    omega

/-- Inductive invariant of download.py's executor: active items plus
free permits always total the configured limit. -/
theorem semPool_invariant (k n : Nat) (s : SemPoolState)
    (h : Relation.ReflTransGen SemPoolStep
      ⟨List.replicate n DlPhase.waiting, k⟩ s) :
    runningCount s.phases + s.avail = k := by
  induction h with
  | refl => simp [runningCount_replicate_waiting]
  | tail hsteps hstep ih => exact semPoolStep_preserves k _ _ hstep ih

/-- The download.py executor never exceeds its concurrency limit: in
every reachable scheduling state at most `k` items are in active
execution. -/
theorem semPool_running_le_limit (k n : Nat) (s : SemPoolState)
    (h : Relation.ReflTransGen SemPoolStep
      ⟨List.replicate n DlPhase.waiting, k⟩ s) :
    runningCount s.phases ≤ k := by
  have h2 := semPool_invariant k n s h
  omega

/-- Scheduling state of `YouTubeProcessor.download_batch`
(yt_process.py lines 239-273): the phases of the eagerly created
download tasks, the phases of the `limited_download` awaiter
coroutines gathered afterwards, and the free permits of the
semaphore. -/
structure YtBatchState where
  items : List DlPhase
  awaiters : List DlPhase
  avail : Nat
deriving DecidableEq, Repr

/-- Small-step scheduling of `download_batch`: `asyncio.create_task`
(line 254) schedules each item's download IMMEDIATELY — no permit is
required for an item to start running. The semaphore is acquired only
by the `limited_download` wrappers (lines 265-267), which merely await
the already-running tasks. -/
inductive YtBatchStep : YtBatchState → YtBatchState → Prop where
  | createTask (s : YtBatchState) (i : Nat)
      (h : s.items[i]? = some .waiting) :
      YtBatchStep s ⟨s.items.set i .running, s.awaiters, s.avail⟩
  | finishTask (s : YtBatchState) (i : Nat)
      (h : s.items[i]? = some .running) :
      YtBatchStep s ⟨s.items.set i .done, s.awaiters, s.avail⟩
  | acquire (s : YtBatchState) (i : Nat)
      (h : s.awaiters[i]? = some .waiting) (ha : 0 < s.avail) :
      YtBatchStep s ⟨s.items, s.awaiters.set i .running, s.avail - 1⟩
  | release (s : YtBatchState) (i : Nat)
      (hw : s.awaiters[i]? = some .running)
      (hi : s.items[i]? = some .done) :
      YtBatchStep s ⟨s.items, s.awaiters.set i .done, s.avail + 1⟩

/-- Initial state of `download_batch` with `n` URLs and concurrency
limit `k`. -/
def ytBatchInit (n k : Nat) : YtBatchState :=
  ⟨List.replicate n DlPhase.waiting, List.replicate n DlPhase.waiting, k⟩

/-- C2 fails on `YouTubeProcessor.download_batch`: with 2 URLs and
`max_concurrent = 1`, the scheduler reaches — by just creating the two
tasks, before any semaphore permit is taken — a state in which BOTH
items are in active execution: 2 > 1 items run concurrently, so the
semaphore does not bound execution there. (The download.py executor
does satisfy the bound: see `semPool_running_le_limit`.) -/
theorem c2_limit_violated_in_yt_download_batch :
    Relation.ReflTransGen YtBatchStep (ytBatchInit 2 1)
      ⟨[DlPhase.running, DlPhase.running],
       [DlPhase.waiting, DlPhase.waiting], 1⟩ ∧
    runningCount [DlPhase.running, DlPhase.running] = 2 ∧ 1 < 2 := by
  refine ⟨?_, by decide, by decide⟩
  have step1 : YtBatchStep (ytBatchInit 2 1)
      ⟨[DlPhase.running, DlPhase.waiting],
       [DlPhase.waiting, DlPhase.waiting], 1⟩ :=
    YtBatchStep.createTask (ytBatchInit 2 1) 0 rfl
  have step2 : YtBatchStep
      ⟨[DlPhase.running, DlPhase.waiting],
       [DlPhase.waiting, DlPhase.waiting], 1⟩
      ⟨[DlPhase.running, DlPhase.running],
       [DlPhase.waiting, DlPhase.waiting], 1⟩ :=
    YtBatchStep.createTask
      ⟨[DlPhase.running, DlPhase.waiting],
       [DlPhase.waiting, DlPhase.waiting], 1⟩ 1 rfl
  exact Relation.ReflTransGen.head step1
    (Relation.ReflTransGen.head step2 Relation.ReflTransGen.refl)
